import Mathlib

/-!
Verification development for the playback & time-synchronization engine of the
mocap viewer (`src/components/ThreeView.tsx`).  The engine's numeric state is
embedded over `ℚ` (exact rational arithmetic standing in for JS numbers on the
values the program manipulates), JS objects carrying heterogeneous values are
embedded as association lists over a small JS-value type, and the stateful
React component is embedded as explicit state records with step functions.
-/

/- ================================================================== -/
/- JS values, rows                                                     -/
/- ================================================================== -/

/-- A JavaScript value as inspected by the pipeline.  The code only ever asks
three questions of a value: `typeof v === "number"`, `Number.isFinite(v)`, and
the result of the coercion `Number(v)`.  We embed exactly that observable
behaviour:
* `fin q` — a finite number with value `q`;
* `nanNum` — a number-typed non-finite value (`NaN`, `±Infinity`);
* `other c` — a non-number value (string, boolean, `null`, …) together with
  the outcome of `Number(v)` (`some q` when the coercion yields a finite
  number, `none` when it yields `NaN`/`±Infinity`). -/
inductive JsVal where
  | fin (q : ℚ)
  | nanNum
  | other (c : Option ℚ)
deriving DecidableEq, Repr

/-- `typeof v === "number"`. -/
def JsVal.isNumberType : JsVal → Bool
  | JsVal.fin _ => true
  | JsVal.nanNum => true
  | JsVal.other _ => false

/-- `typeof v === "number" && Number.isFinite(v)`. -/
def JsVal.isFiniteNum : JsVal → Bool
  | JsVal.fin _ => true
  | _ => false

/-- A row: a JS object, i.e. a mapping from field names to values (JS object
keys are unique, so iterating the pairs is iterating `Object.keys`). -/
abbrev Row : Type := List (String × JsVal)

/-- `row[k]` — field lookup (`none` = the field is absent / `undefined`). -/
def getField (r : Row) (k : String) : Option JsVal :=
  (r.find? (fun p => p.1 = k)).map Prod.snd

/-- `Number(x)` restricted to the finite outcomes: `some q` when the coercion
produces the finite number `q`, `none` when it produces a non-finite number
(in particular `Number(undefined) = NaN`). -/
def jsNumberFin : Option JsVal → Option ℚ
  | some (JsVal.fin q) => some q
  | some JsVal.nanNum => none
  | some (JsVal.other c) => c
  | none => none

/- ================================================================== -/
/- JS arithmetic helpers: `%`, `Math.round`, wraparound                -/
/- ================================================================== -/

/-- JS truncation toward zero, as used by the `%` operator. -/
def jsTrunc (q : ℚ) : ℤ := if 0 ≤ q then ⌊q⌋ else -⌊-q⌋

/-- The JS remainder operator `x % d` (`x - d * trunc (x / d)`). -/
def jsMod (x d : ℚ) : ℚ := x - d * jsTrunc (x / d)

/-- `Math.round` (half rounds up, also for negative arguments). -/
def jsRound (q : ℚ) : ℤ := ⌊q + 1/2⌋

/-- The wraparound idiom `((x % d) + d) % d` used throughout the clock. -/
def wrap (x d : ℚ) : ℚ := jsMod (jsMod x d + d) d

theorem jsMod_eq_of_nonneg (x d : ℚ) (hx : 0 ≤ x) (hd : 0 < d) :
    jsMod x d = x - d * ⌊x / d⌋ := by
  unfold jsMod jsTrunc
  have : 0 ≤ x / d := div_nonneg hx hd.le
  simp [this]

theorem jsMod_nonneg (x d : ℚ) (hx : 0 ≤ x) (hd : 0 < d) : 0 ≤ jsMod x d := by
  rw [jsMod_eq_of_nonneg x d hx hd]
  have h1 : (⌊x / d⌋ : ℚ) ≤ x / d := Int.floor_le _
  have h2 : d * (⌊x / d⌋ : ℚ) ≤ d * (x / d) :=
    mul_le_mul_of_nonneg_left h1 hd.le
  have h3 : d * (x / d) = x := by field_simp
  linarith

theorem jsMod_lt (x d : ℚ) (hx : 0 ≤ x) (hd : 0 < d) : jsMod x d < d := by
  rw [jsMod_eq_of_nonneg x d hx hd]
  have h1 : x / d < ⌊x / d⌋ + 1 := Int.lt_floor_add_one _
  have h2 : d * (x / d) < d * ((⌊x / d⌋ : ℚ) + 1) :=
    mul_lt_mul_of_pos_left h1 hd
  have h3 : d * (x / d) = x := by field_simp
  nlinarith

theorem jsMod_neg_bounds (x d : ℚ) (hx : x < 0) (hd : 0 < d) :
    -d < jsMod x d ∧ jsMod x d ≤ 0 := by
  have hx' : 0 ≤ -x := by linarith
  have hq : ¬ 0 ≤ x / d := by
    intro h
    have := mul_nonneg h hd.le
    rw [div_mul_cancel₀ x hd.ne'] at this
    linarith
  have hmod : jsMod x d = -(jsMod (-x) d) := by
    unfold jsMod jsTrunc
    have hq2 : 0 ≤ (-x) / d := div_nonneg hx' hd.le
    rw [if_neg hq, if_pos hq2]
    have : -x / d = -(x / d) := by ring
    rw [this] at hq2 ⊢
    push_cast
    ring
  have h1 := jsMod_nonneg (-x) d hx' hd
  have h2 := jsMod_lt (-x) d hx' hd
  constructor <;> [skip; skip] <;> rw [hmod] <;> linarith

/-- The wraparound `((x % d) + d) % d` always lands in `[0, d)` when `d > 0`. -/
theorem wrap_mem (x d : ℚ) (hd : 0 < d) : 0 ≤ wrap x d ∧ wrap x d < d := by
  unfold wrap
  rcases le_or_lt 0 x with hx | hx
  · have h1 := jsMod_nonneg x d hx hd
    have h2 := jsMod_lt x d hx hd
    set m := jsMod x d with hm
    have hge : 0 ≤ m + d := by linarith
    have key : jsMod (m + d) d = m := by
      rw [jsMod_eq_of_nonneg _ _ hge hd]
      have hfloor : ⌊(m + d) / d⌋ = 1 := by
        rw [Int.floor_eq_iff]
        constructor
        · push_cast
          rw [le_div_iff₀ hd]
          linarith
        · push_cast
          rw [div_lt_iff₀ hd]
          linarith
      rw [hfloor]
      push_cast
      ring
    rw [key]
    exact ⟨h1, h2⟩
  · obtain ⟨h1, h2⟩ := jsMod_neg_bounds x d hx hd
    set m := jsMod x d with hm
    have hge : 0 ≤ m + d := by linarith
    have hlt : m + d ≤ d := by linarith
    rcases eq_or_lt_of_le hlt with heq | hlt'
    · have key : jsMod (m + d) d = 0 := by
        rw [jsMod_eq_of_nonneg _ _ hge hd, heq]
        rw [div_self hd.ne']
        norm_num
      rw [key]
      exact ⟨le_refl 0, hd⟩
    · have key : jsMod (m + d) d = m + d := by
        rw [jsMod_eq_of_nonneg _ _ hge hd]
        have hfloor : ⌊(m + d) / d⌋ = 0 := by
          rw [Int.floor_eq_iff]
          constructor
          · push_cast
            exact div_nonneg hge hd.le
          · push_cast
            rw [div_lt_iff₀ hd]
            linarith
        rw [hfloor]
        push_cast
        ring
      rw [key]
      constructor <;> linarith

/- ================================================================== -/
/- Playback Clock (ThreeView.tsx lines 584-649)                        -/
/- ================================================================== -/

/-- Frames per second, `const FPS = 120`. -/
def FPS : ℚ := 120

/-- The clock state owned by `ThreeView`: the `time`, `playing`, `speed`,
`snapFrames`, `duration` React states plus the two loop refs `lastTsRef`
(last host timestamp, ms) and `subFrameAccRef` (sub-frame accumulator). -/
structure ClockState where
  time : ℚ
  playing : Bool
  speed : ℚ
  snapFrames : Bool
  duration : ℚ
  lastTs : Option ℚ
  acc : ℚ
deriving DecidableEq, Repr

/-- One `requestAnimationFrame` callback body (`loop`, lines 607-641), at host
timestamp `ts` in milliseconds.  Mirrors the source exactly: the raw elapsed
time is clamped to `[0, 0.05]` seconds, speed to `[0.1, 2]`; the non-snap
branch advances continuously with wraparound, the snap branch advances whole
frames out of the accumulator and clamps away from the loop boundary. -/
def tickFn (ts : ℚ) (s : ClockState) : ClockState :=
  let last := s.lastTs.getD ts
  let dtRaw := (ts - last) / 1000
  let dt := min (max dtRaw 0) (1/20)
  let s1 := { s with lastTs := some ts }
  if ¬ s.playing ∨ s.duration ≤ 0 then s1
  else
    let sp := min 2 (max (1/10) s.speed)
    let delta := dt * sp
    if ¬ s.snapFrames then
      let next := s.time + delta
      let next := if 0 < s.duration then wrap next s.duration else next
      { s1 with time := next }
    else
      let step := 1 / FPS
      let acc := s.acc + delta
      let frames : ℤ := ⌊acc / step⌋
      let s2 := { s1 with acc := acc - frames * step }
      if frames ≤ 0 then s2
      else
        let next := s.time + frames * step
        let next :=
          if 0 < s.duration then
            min (max 0 (wrap next s.duration)) (max 0 (s.duration - step / 2))
          else next
        { s2 with time := next }

/-- `onReadyDuration` callback (lines 584-587): stores the reported duration
verbatim and re-wraps the current time via `(t % dur + dur) % dur` when the
duration is positive, else resets the time to 0. -/
def onReadyDuration (dur : ℚ) (s : ClockState) : ClockState :=
  { s with duration := dur
         , time := if 0 < dur then wrap s.time dur else 0 }

/-- An action on the clock between host frames: a tick, or one of the setting
changes.  Each setting change also zeroes the sub-frame accumulator, per the
effect at lines 600-602 (`subFrameAccRef.current = 0` on any change of
`speed`, `snapFrames`, `playing`, `duration` — the duration is not changed by
these actions). -/
inductive ClockAct where
  | tick (ts : ℚ)
  | setPlaying (b : Bool)
  | setSpeed (v : ℚ)
  | setSnap (b : Bool)
deriving DecidableEq, Repr

def applyClockAct (s : ClockState) (a : ClockAct) : ClockState :=
  match a with
  | ClockAct.tick ts => tickFn ts s
  | ClockAct.setPlaying b => { s with playing := b, acc := 0 }
  | ClockAct.setSpeed v => { s with speed := v, acc := 0 }
  | ClockAct.setSnap b => { s with snapFrames := b, acc := 0 }

def runClock (s : ClockState) (acts : List ClockAct) : ClockState :=
  acts.foldl applyClockAct s

/- ================================================================== -/
/- Timebase Reconciler (ThreeView.tsx lines 652-665)                   -/
/- ================================================================== -/

/-- `handleGraphSeek(tJson)`: maps a time expressed in the data (series)
timebase to the animation timebase and stores it as the new current time.
`duration` is the animation duration, `jsonDuration` the series duration,
`time` the current time (returned unchanged when the seek is a no-op).
In the both-positive branch the snap rounding is applied to the scaled value
and the clamp to `[0, duration]` is applied last; in the animation-only branch
the clamp is applied first and the rounding last, exactly as in the source. -/
def handleGraphSeek (tJson : ℚ) (duration jsonDuration : ℚ) (snap : Bool)
    (time : ℚ) : ℚ :=
  if 0 < duration ∧ 0 < jsonDuration then
    let t := (tJson / jsonDuration) * duration
    let t := if snap then (jsRound (t * FPS) : ℚ) / FPS else t
    max 0 (min duration t)
  else if 0 < duration then
    let t := max 0 (min duration tJson)
    let t := if snap then (jsRound (t * FPS) : ℚ) / FPS else t
    t
  else time

/-- Modelled from the spec: the reading of the claim in which, for the
both-durations-positive branch, the scaled value is first clamped into
`[0, animationDuration]` and then (when snapping is on) rounded to the
nearest multiple of `1/FPS` — the order `seekAbsolute` prescribes. -/
def specSeekClampThenRound (tJson : ℚ) (duration jsonDuration : ℚ)
    (snap : Bool) (time : ℚ) : ℚ :=
  if 0 < duration ∧ 0 < jsonDuration then
    let t := (tJson / jsonDuration) * duration
    let t := max 0 (min duration t)
    if snap then (jsRound (t * FPS) : ℚ) / FPS else t
  else if 0 < duration then
    let t := max 0 (min duration tJson)
    if snap then (jsRound (t * FPS) : ℚ) / FPS else t
  else time

/- ================================================================== -/
/- Channel Extractor (ThreeView.tsx lines 479-500)                     -/
/- ================================================================== -/

/-- The reserved time-keeping field names (`k === "t" || k === "time" ||
k === "frame"` in `listNumericChannels`). -/
def isReservedKey (k : String) : Bool :=
  k = "t" || k = "time" || k = "frame"

/-- The field names of one row whose value is a finite number, reserved names
excluded (the body of the `for (const k of Object.keys(d))` loop; JS object
keys are unique, so iterating the pairs is iterating the keys). -/
def rowNumericKeys (r : Row) : List String :=
  (r.filter (fun p => !isReservedKey p.1 && p.2.isFiniteNum)).map Prod.fst

/-- `listNumericChannels(data)`: every field name that is a finite number in
at least one row, reserved names excluded, deduplicated (the `Set`) and
sorted (`Array.from(set).sort()`; the `Set`'s insertion order is erased by
the sort, so deduplication order is irrelevant). -/
def listNumericChannels (data : List Row) : List String :=
  List.insertionSort (· ≤ ·) (data.flatMap rowNumericKeys).dedup

/-- ASCII lower-casing of one character (the `/i` regex flag on the ASCII
patterns used by the code). -/
def charLower (c : Char) : Char :=
  if 65 ≤ c.toNat ∧ c.toNat ≤ 90 then Char.ofNat (c.toNat + 32) else c

/-- The character list of `s`, lower-cased. -/
def lowerChars (s : String) : List Char := s.data.map charLower

/-- Case-insensitive regex-free matcher: does the (lower-case, ASCII) pattern
`pat` occur as a substring of `s` lower-cased?  Embeds `/pat/i.test(s)`. -/
def containsCI (s pat : String) : Bool :=
  (lowerChars s).tails.any (fun t => pat.data.isPrefixOf t)

/-- `/a.*b/i.test(k)` for lower-case ASCII literals `a`, `b`: some occurrence
of `a` in `k` lower-cased is followed (possibly after other characters) by an
occurrence of `b`. -/
def followedByMatch (k a b : String) : Bool :=
  (lowerChars k).tails.any (fun t => a.data.isPrefixOf t &&
    (t.drop a.length).tails.any (fun u => b.data.isPrefixOf u))

/-- `/Wrist.*Velocity/i.test(k)`. -/
def wristVelMatch (k : String) : Bool := followedByMatch k "wrist" "velocity" 

/-- `pickPreferredChannel(list)` (lines 492-500): first match of the ordered
pattern rules, else the first element, else none. -/
def pickPreferredChannel (list : List String) : Option String :=
  (list.find? wristVelMatch).orElse (fun _ =>
    (list.find? (fun k => containsCI k "velocity")).orElse (fun _ =>
      (list.find? (fun k => containsCI k "rotation")).orElse (fun _ =>
        list.head?)))

/- ================================================================== -/
/- Series Builder (ThreeView.tsx lines 502-543)                        -/
/- ================================================================== -/

/-- `typeof row[k] === "number"` for an optional field value (absent fields
are `undefined`, not number-typed). -/
def isNumberV (o : Option JsVal) : Bool := (o.map JsVal.isNumberType).getD false

/-- `typeof row[k] === "number" && Number.isFinite(row[k])` for an optional
field value. -/
def isFiniteV (o : Option JsVal) : Bool := (o.map JsVal.isFiniteNum).getD false

/-- The time-key determination of `buildSeries` (lines 508-510):
`hasT = data.some(d => typeof d?.t === "number")` (NaN and ±Infinity are
number-typed!), likewise for `time`; prefer `t`, else `time`, else none. -/
def timeKey (data : List Row) : Option String :=
  if data.any (fun r => isNumberV (getField r "t")) then some "t"
  else if data.any (fun r => isNumberV (getField r "time")) then some "time"
  else none

/-- Modelled from the spec: the claim's time-key rule, which asks for a
*finite* value (`Number.isFinite`) under `t` (else `time`) instead of the
code's `typeof === "number"` test. -/
def specTimeKey (data : List Row) : Option String :=
  if data.any (fun r => isFiniteV (getField r "t")) then some "t"
  else if data.any (fun r => isFiniteV (getField r "time")) then some "time"
  else none

/-- One iteration of the row loop of `buildSeries` (lines 515-529): keep the
row only if the channel's value is a finite number; take its time from the
time key when one is in use (`Number(row[tKey])`, skipping the row when the
coercion is non-finite), else fall back to `i / (n-1)` over the *total* row
count `n` (0 when `n == 1`). -/
def rowPoint (n : ℕ) (tKey : Option String) (channel : String)
    (i : ℕ) (row : Row) : Option (ℚ × ℚ) :=
  match getField row channel with
  | some (JsVal.fin v) =>
    match tKey with
    | some k =>
      match jsNumberFin (getField row k) with
      | some tv => some (tv, v)
      | none => none
    | none => some (if 1 < n then (i : ℚ) / ((n : ℚ) - 1) else 0, v)
  | _ => none

/-- A built series: the normalized points `(relativeTime, value)` and the
implied duration. -/
structure SeriesResult where
  pts : List (ℚ × ℚ)
  dur : ℚ
deriving DecidableEq, Repr

/-- The raw kept points of `buildSeries` before normalization: the `pts`
array right after the row loop (lines 513-529). -/
def seriesRaw (data : List Row) (ch : String) : List (ℚ × ℚ) :=
  data.enum.filterMap (fun p => rowPoint data.length (timeKey data) ch p.1 p.2)

/-- `buildSeries(data, channel)` (lines 502-543).  The guard
`!data || data.length === 0 || !channel` (line 506) short-circuits on a null
channel and also on the falsy empty string `""`.  Returns the kept points
normalized so the first one starts at time 0, and
`dur = max 0 (lastKeptTime - firstKeptTime)` (`t0`/`t1` embed
`pts[0].t ?? 0` and `pts[pts.length - 1].t ?? 0`). -/
def buildSeries (data : List Row) (channel : Option String) : SeriesResult :=
  match channel with
  | none => ⟨[], 0⟩
  | some ch =>
    if ch = "" then ⟨[], 0⟩
    else if data.isEmpty then ⟨[], 0⟩
    else
      let raw := seriesRaw data ch
      if raw.isEmpty then ⟨[], 0⟩
      else
        let t0 := ((raw.head?).map Prod.fst).getD 0
        let t1 := ((raw.getLast?).map Prod.fst).getD 0
        ⟨raw.map (fun p => (p.1 - t0, p.2)), max 0 (t1 - t0)⟩

/- ================================================================== -/
/- Dataset Store & Load Orchestrator (ThreeView.tsx 301-391, 546-581)  -/
/- ================================================================== -/

/-- The player manifest (`PlayerManifest` type, lines 22-29).  `sessions` is
kept optional because the code reads it defensively (`m.sessions ?? []`,
`m.sessions?.includes`); the asset-filename fields (`fbx`, `excel`, `files`)
only shape fetch URLs and are outside the mutated state modelled here. -/
structure PlayerManifest where
  player : String
  defaultSession : Option String
  sessions : Option (List String)
deriving DecidableEq, Repr

/-- The session chosen on manifest arrival (line 315-317):
`prev && m.sessions?.includes(prev) ? prev : m.defaultSession ??
m.sessions?.[0] ?? null`. -/
def manifestNewSession (m : PlayerManifest) (prev : Option String) :
    Option String :=
  let fallback := m.defaultSession.orElse (fun _ => m.sessions.bind List.head?)
  match prev with
  | some p => if (m.sessions.getD []).contains p then some p else fallback
  | none => fallback

/-- A parsed table: sheet name to rows, in discovery order (`RowsBySheet`). -/
abbrev RowsBySheet : Type := List (String × List Row)

/-- `sets[name]` lookup. -/
def lookupSheet (sets : RowsBySheet) (n : String) : Option (List Row) :=
  (sets.find? (fun p => p.1 = n)).map Prod.snd

/-- The data-dependent React state of `ThreeView`: the dataset collection and
everything derived from it. -/
structure DataState where
  rowsBySheet : Option RowsBySheet
  sheetNames : List String
  sheet : Option String
  rows : Option (List Row)
  channels : List String
  selectedChannel : Option String
  selectedChannelB : Option String
  series : Option (List (ℚ × ℚ))
  seriesB : Option (List (ℚ × ℚ))
  jsonDuration : ℚ
deriving DecidableEq

/-- Channel B's default (lines 555-560): keep a still-valid previous choice,
else the first channel different from A's pick, else A's pick (JS
`chs.find((k) => k !== first) ?? first ?? null`). -/
def pickChannelB (chs : List String) : Option String :=
  let first := pickPreferredChannel chs
  (chs.find? (fun k => some k ≠ first)).orElse (fun _ => first)

/-- The recompute effect (lines 546-561): when a dataset collection and an
active sheet exist, re-derive `rows`, `channels` and both selections.  When
the active sheet is not a key of the collection the source would pass
`undefined` rows on (never reached: `sheet` is always drawn from
`sheetNames`); we leave the state unchanged in that case. -/
def recomputeEffect (d : DataState) : DataState :=
  match d.rowsBySheet, d.sheet with
  | some sets, some sh =>
    match lookupSheet sets sh with
    | some newRows =>
      let chs := listNumericChannels newRows
      let selA :=
        match d.selectedChannel with
        | some p => if chs.contains p then some p else pickPreferredChannel chs
        | none => pickPreferredChannel chs
      let selB :=
        match d.selectedChannelB with
        | some p => if chs.contains p then some p else pickChannelB chs
        | none => pickChannelB chs
      { d with rows := some newRows, channels := chs,
               selectedChannel := selA, selectedChannelB := selB }
    | none => d
  | _, _ => d

/-- The series-A effect (lines 563-572). -/
def seriesEffect (d : DataState) : DataState :=
  match d.rows, d.selectedChannel with
  | some rs, some ch =>
    let r := buildSeries rs (some ch)
    { d with series := some r.pts, jsonDuration := r.dur }
  | _, _ => { d with series := none, jsonDuration := 0 }

/-- The series-B effect (lines 574-581); note it does not touch
`jsonDuration`. -/
def seriesBEffect (d : DataState) : DataState :=
  match d.rows, d.selectedChannelB with
  | some rs, some ch => { d with seriesB := some (buildSeries rs (some ch)).pts }
  | _, _ => { d with seriesB := none }

/-- Run the three data effects to quiescence, in declaration order.  One pass
suffices: `recomputeEffect` only reads `rowsBySheet`/`sheet`, which it never
writes, and the series effects read what `recomputeEffect` wrote. -/
def settleData (d : DataState) : DataState :=
  seriesBEffect (seriesEffect (recomputeEffect d))

/-- The full modelled component state: manifest-related state, the
cancellation bookkeeping of the manifest-loader effect, and the data state.
`manifestRun` is the id of the latest run of the manifest effect; run `r`'s
`cancelled` flag (line 302, set by the cleanup at lines 329-331) is
`r ≠ manifestRun`. -/
structure AppState where
  manifest : Option PlayerManifest
  sessions : List String
  session : Option String
  manifestRun : ℕ
  data : DataState
deriving DecidableEq

/-- The reset applied by the excel `catch` (lines 383-389), followed by the
data effects it triggers. -/
def applyExcelErr (s : AppState) : AppState :=
  let d := { s.data with rowsBySheet := none, sheetNames := [],
                         sheet := none, rows := none }
  { s with data := settleData d }

/-- An asynchronous completion or a loader (re)start, as delivered by the
host event loop. -/
inductive LoadEvent where
  | manifestStart
  | manifestOk (run : ℕ) (m : PlayerManifest)
  | manifestErr
  | excelOk (sets : RowsBySheet)
  | excelErr

/-- One event against the component state.
* `manifestStart`: the manifest effect re-runs for a new player; its cleanup
  marks every older run cancelled (lines 301-333).
* `manifestOk run m`: a manifest fetch of run `run` resolves; the success path
  checks `if (cancelled) return;` (line 311) before mutating state (lines
  313-317).
* `manifestErr`: a manifest fetch rejects; the `catch` (lines 320-325) resets
  manifest, sessions and session — it contains no cancellation check.
* `excelOk sets`: the excel fetch+parse of the session-load effect resolves
  (lines 370-382); the async body contains **no** cancellation flag at all, so
  the result is applied no matter how stale it is.  An empty sheet list throws
  (line 372) into the same `catch` as a fetch failure.
* `excelErr`: the excel fetch/parse fails (lines 383-389).
The data effects (lines 546-581) run after the events that change their
dependencies. -/
def applyLoadEvent (s : AppState) (e : LoadEvent) : AppState :=
  match e with
  | LoadEvent.manifestStart => { s with manifestRun := s.manifestRun + 1 }
  | LoadEvent.manifestOk run m =>
    if run ≠ s.manifestRun then s
    else { s with manifest := some m, sessions := m.sessions.getD [],
                  session := manifestNewSession m s.session }
  | LoadEvent.manifestErr =>
    { s with manifest := none, sessions := [], session := none }
  | LoadEvent.excelOk sets =>
    let names := sets.map Prod.fst
    if names.isEmpty then applyExcelErr s
    else
      let preferred :=
        ((names.find? (fun n => followedByMatch n "joint" "position")).orElse
          (fun _ => names.find? (fun n => followedByMatch n "baseball" "data"))).orElse
          (fun _ => names.head?)
      let d := { s.data with rowsBySheet := some sets, sheetNames := names,
                             sheet := preferred,
                             rows := preferred.bind (lookupSheet sets) }
      { s with data := settleData d }
  | LoadEvent.excelErr => applyExcelErr s

def runLoad (s : AppState) (es : List LoadEvent) : AppState :=
  es.foldl applyLoadEvent s

/-- The initial React state of `ThreeView` (lines 242-255, 298-299). -/
def initDataState : DataState :=
  ⟨none, [], none, none, [], none, none, none, none, 0⟩

def initAppState : AppState :=
  ⟨none, [], none, 0, initDataState⟩

/- ================================================================== -/
/- Clock theorems                                                      -/
/- ================================================================== -/

theorem tickFn_duration (ts : ℚ) (s : ClockState) :
    (tickFn ts s).duration = s.duration := by
  unfold tickFn
  dsimp only
  split_ifs <;> rfl

theorem tickFn_time_mem (ts : ℚ) (s : ClockState) (hd : 0 < s.duration)
    (h0 : 0 ≤ s.time) (h1 : s.time < s.duration) :
    0 ≤ (tickFn ts s).time ∧ (tickFn ts s).time < s.duration := by
  have hhalf : s.duration - 1 / FPS / 2 < s.duration := by
    have : (0 : ℚ) < 1 / FPS / 2 := by norm_num [FPS]
    linarith
  unfold tickFn
  dsimp only
  split_ifs
  case _ => exact ⟨h0, h1⟩
  case _ => exact ⟨h0, h1⟩
  case _ =>
    dsimp only
    exact ⟨le_min (le_max_left 0 _) (le_max_left 0 _),
      lt_of_le_of_lt (min_le_right _ _) (max_lt hd hhalf)⟩
  case _ =>
    dsimp only
    exact wrap_mem _ _ hd

theorem applyClockAct_duration (s : ClockState) (a : ClockAct) :
    (applyClockAct s a).duration = s.duration := by
  cases a with
  | tick ts => exact tickFn_duration ts s
  | setPlaying b => rfl
  | setSpeed v => rfl
  | setSnap b => rfl

theorem applyClockAct_time_mem (s : ClockState) (a : ClockAct)
    (hd : 0 < s.duration) (h0 : 0 ≤ s.time) (h1 : s.time < s.duration) :
    0 ≤ (applyClockAct s a).time ∧ (applyClockAct s a).time < s.duration := by
  cases a with
  | tick ts => exact tickFn_time_mem ts s hd h0 h1
  | setPlaying b => exact ⟨h0, h1⟩
  | setSpeed v => exact ⟨h0, h1⟩
  | setSnap b => exact ⟨h0, h1⟩

/-- C1. Clock invariant: for every state whose `animationDuration` is
positive and whose `currentTime` lies in `[0, animationDuration)`, after any
finite sequence of `tick` calls — interleaved with arbitrary changes of
`playing`, `speed` and `snapToFrames` — `currentTime` remains within
`[0, animationDuration)` (hence also after each individual tick, every
initial segment being such a sequence).  No monotonicity of the host timestamps is needed:
the elapsed-time clamp to `[0, 0.05]` already discards negative deltas. -/
theorem clock_invariant (acts : List ClockAct) (s : ClockState)
    (hd : 0 < s.duration) (h0 : 0 ≤ s.time) (h1 : s.time < s.duration) :
    0 ≤ (runClock s acts).time ∧ (runClock s acts).time < s.duration := by
  induction acts generalizing s with
  | nil => exact ⟨h0, h1⟩
  | cons a rest ih =>
    have hstep := applyClockAct_time_mem s a hd h0 h1
    have hdur := applyClockAct_duration s a
    have hd' : 0 < (applyClockAct s a).duration := by rw [hdur]; exact hd
    have h1' : (applyClockAct s a).time < (applyClockAct s a).duration := by
      rw [hdur]; exact hstep.2
    have := ih (applyClockAct s a) hd' hstep.1 h1'
    rw [hdur] at this
    exact this

/-- Witness for C1 at a concrete state and action sequence. -/
theorem clock_invariant_witness :
    0 ≤ (runClock ⟨0, true, 1, false, 2, none, 0⟩
          [ClockAct.tick 0, ClockAct.tick 400, ClockAct.setSpeed 5,
           ClockAct.setSnap true, ClockAct.tick 900]).time ∧
    (runClock ⟨0, true, 1, false, 2, none, 0⟩
          [ClockAct.tick 0, ClockAct.tick 400, ClockAct.setSpeed 5,
           ClockAct.setSnap true, ClockAct.tick 900]).time < 2 :=
  clock_invariant _ _ (by norm_num) (by norm_num) (by norm_num)

/-- The exact value computed by the C2 scenario: a fresh loop (`lastTs` is
`null` after a restart, so the first tick contributes elapsed 0) followed by
ticks 1.5 s and 1.0 s later, at `animationDuration = 2`, `speed = 1`,
`snapToFrames = false`, `playing = true`, starting time 0.  Each elapsed is
clamped to 0.05 s, so the time advances by 0.05 + 0.05. -/
lemma runClock_scenario_eval :
    (runClock ⟨0, true, 1, false, 2, none, 0⟩
      [ClockAct.tick 0, ClockAct.tick 1500, ClockAct.tick 2500]).time = 1/10 := by
  have t1 : applyClockAct ⟨0, true, 1, false, 2, none, 0⟩ (ClockAct.tick 0)
      = ⟨0, true, 1, false, 2, some 0, 0⟩ := by
    norm_num [applyClockAct, tickFn, wrap, jsMod, jsTrunc, min_def, max_def]
  have t2 : applyClockAct ⟨0, true, 1, false, 2, some 0, 0⟩ (ClockAct.tick 1500)
      = ⟨1/20, true, 1, false, 2, some 1500, 0⟩ := by
    norm_num [applyClockAct, tickFn, wrap, jsMod, jsTrunc, min_def, max_def]
  have t3 : applyClockAct ⟨1/20, true, 1, false, 2, some 1500, 0⟩ (ClockAct.tick 2500)
      = ⟨1/10, true, 1, false, 2, some 2500, 0⟩ := by
    norm_num [applyClockAct, tickFn, wrap, jsMod, jsTrunc, min_def, max_def]
  have hrun : runClock ⟨0, true, 1, false, 2, none, 0⟩
      [ClockAct.tick 0, ClockAct.tick 1500, ClockAct.tick 2500]
      = applyClockAct (applyClockAct (applyClockAct ⟨0, true, 1, false, 2, none, 0⟩
          (ClockAct.tick 0)) (ClockAct.tick 1500)) (ClockAct.tick 2500) := rfl
  rw [hrun, t1, t2, t3]

/-- C2 counterexample: with elapsed wall times 1.5 s then 1.0 s, the code
does NOT end at `currentTime = 0.5`: the elapsed-time clamp to `[0, 0.05]`
(line 611) bounds each tick's contribution, and the run ends at 0.1. -/
theorem tick_scenario_counterexample :
    (runClock ⟨0, true, 1, false, 2, none, 0⟩
      [ClockAct.tick 0, ClockAct.tick 1500, ClockAct.tick 2500]).time ≠ 1/2 := by
  rw [runClock_scenario_eval]; norm_num

/-- C2 amended: the scenario of the claim ends at `currentTime = 0.1`, each
of the two elapsed times being clamped to 0.05 s before integration. -/
theorem tick_scenario_amended :
    (runClock ⟨0, true, 1, false, 2, none, 0⟩
      [ClockAct.tick 0, ClockAct.tick 1500, ClockAct.tick 2500]).time = 1/10 :=
  runClock_scenario_eval

/-- C6 counterexample: `onReadyDuration` stores the reported duration
verbatim (line 585), so at `d = -1` the stored `animationDuration` is `-1`,
not `max 0 (-1) = 0` as the claim states. -/
theorem onReadyDuration_counterexample :
    (onReadyDuration (-1) ⟨3, true, 1, false, 2, none, 0⟩).duration = -1 ∧
    ((-1 : ℚ) ≠ max 0 (-1)) := by
  constructor
  · norm_num [onReadyDuration]
  · norm_num

/-- C6 amended: `onReadyDuration(d)` sets `animationDuration = d` (no
clamping to 0); when `d > 0` it re-wraps `currentTime` to
`((currentTime mod d) + d) mod d`, which lands in `[0, d)`; otherwise it sets
`currentTime = 0`.  This holds for every `d` and every prior state, so in
particular when the callback fires again on a re-load. -/
theorem onReadyDuration_spec (d : ℚ) (s : ClockState) :
    (onReadyDuration d s).duration = d ∧
    (0 < d → (onReadyDuration d s).time = wrap s.time d ∧
      0 ≤ (onReadyDuration d s).time ∧ (onReadyDuration d s).time < d) ∧
    (d ≤ 0 → (onReadyDuration d s).time = 0) := by
  unfold onReadyDuration
  refine ⟨rfl, fun hd => ?_, fun hd => ?_⟩
  · dsimp only
    rw [if_pos hd]
    exact ⟨rfl, (wrap_mem s.time d hd).1, (wrap_mem s.time d hd).2⟩
  · dsimp only
    rw [if_neg (not_lt.mpr hd)]

/-- Witness for C6's amended theorem: re-load reporting duration 2 while the
current time is 5 re-wraps into `[0, 2)`. -/
theorem onReadyDuration_spec_witness :
    (onReadyDuration 2 ⟨5, true, 1, false, 7, none, 0⟩).time = wrap 5 2 ∧
    0 ≤ (onReadyDuration 2 ⟨5, true, 1, false, 7, none, 0⟩).time ∧
    (onReadyDuration 2 ⟨5, true, 1, false, 7, none, 0⟩).time < 2 :=
  (onReadyDuration_spec 2 ⟨5, true, 1, false, 7, none, 0⟩).2.1 (by norm_num)

/-- C7 counterexample: with `animationDuration = 3/200`, `seriesDuration = 1`,
snapping on and a seek to `tData = 1`, the code rounds before clamping
(lines 655-657) and returns `3/200` — not the `1/60` that clamping to
`[0, animationDuration]` followed by rounding to the nearest `1/120` (the
claim's order, and `seekAbsolute`'s) would give; the result is not a
multiple of `1/120` at all. -/
theorem graphSeek_counterexample :
    handleGraphSeek 1 (3/200) 1 true 0 = 3/200 ∧
    specSeekClampThenRound 1 (3/200) 1 true 0 = 1/60 ∧
    ((3:ℚ)/200 ≠ 1/60) := by
  refine ⟨?_, ?_, by norm_num⟩
  · norm_num [handleGraphSeek, jsRound, FPS, min_def, max_def]
  · norm_num [specSeekClampThenRound, jsRound, FPS, min_def, max_def]

/-- C7 amended: when both durations are positive the seek maps
`tData` to `(tData / seriesDuration) × animationDuration`, rounds to the
nearest multiple of `1/120` when snapping is enabled, and **then** clamps
into `[0, animationDuration]` (so the result is always in range, but need not
be a frame multiple when the clamp binds); when only `animationDuration` is
positive `tData` itself is clamped and then optionally rounded; otherwise the
seek is a no-op and the current time is unchanged. -/
theorem handleGraphSeek_spec (tJson d jd t0 : ℚ) (snap : Bool) :
    (0 < d → 0 < jd →
      handleGraphSeek tJson d jd snap t0 =
        max 0 (min d (if snap then (jsRound ((tJson / jd * d) * FPS) : ℚ) / FPS
                      else tJson / jd * d)) ∧
      0 ≤ handleGraphSeek tJson d jd snap t0 ∧
      handleGraphSeek tJson d jd snap t0 ≤ d) ∧
    (0 < d → jd ≤ 0 →
      handleGraphSeek tJson d jd snap t0 =
        (if snap then (jsRound (max 0 (min d tJson) * FPS) : ℚ) / FPS
         else max 0 (min d tJson))) ∧
    (d ≤ 0 → handleGraphSeek tJson d jd snap t0 = t0) := by
  refine ⟨fun hd hjd => ?_, fun hd hjd => ?_, fun hd => ?_⟩
  · have he : handleGraphSeek tJson d jd snap t0 =
        max 0 (min d (if snap then (jsRound ((tJson / jd * d) * FPS) : ℚ) / FPS
                      else tJson / jd * d)) := by
      unfold handleGraphSeek
      rw [if_pos ⟨hd, hjd⟩]
    refine ⟨he, ?_, ?_⟩
    · rw [he]; exact le_max_left 0 _
    · rw [he]; exact max_le hd.le (min_le_left d _)
  · unfold handleGraphSeek
    rw [if_neg (fun h => absurd h.2 (not_lt.mpr hjd)), if_pos hd]
  · unfold handleGraphSeek
    rw [if_neg (fun h => absurd h.1 (not_lt.mpr hd)), if_neg (not_lt.mpr hd)]

/-- Witness for C7's amended theorem: both durations positive, no snapping. -/
theorem handleGraphSeek_spec_witness :
    handleGraphSeek 1 2 4 false 9 = max 0 (min 2 (1 / 4 * 2)) ∧
    0 ≤ handleGraphSeek 1 2 4 false 9 ∧ handleGraphSeek 1 2 4 false 9 ≤ 2 := by
  have h := (handleGraphSeek_spec 1 2 4 9 false).1 (by norm_num) (by norm_num)
  simpa using h

/-- C9 counterexample: a single row whose `t` is `NaN` (number-typed, not
finite) and whose `time` is the finite number 1.  The claim's rule (prefer a
*finite* `t`, else `time`) picks `time`, but the code's `typeof` test picks
`t` — and the resulting series is empty, because the only row is then dropped
for its non-finite `t`. -/
theorem timeKey_counterexample :
    timeKey [[("t", JsVal.nanNum), ("time", JsVal.fin 1), ("v", JsVal.fin 2)]] = some "t" ∧
    specTimeKey [[("t", JsVal.nanNum), ("time", JsVal.fin 1), ("v", JsVal.fin 2)]] = some "time" ∧
    (some "t" ≠ some "time") ∧
    buildSeries [[("t", JsVal.nanNum), ("time", JsVal.fin 1), ("v", JsVal.fin 2)]] (some "v")
      = ⟨[], 0⟩ := by
  refine ⟨?_, ?_, by decide, ?_⟩
  · simp [timeKey, isNumberV, getField, JsVal.isNumberType]
  · simp [specTimeKey, isFiniteV, getField, JsVal.isFiniteNum, List.find?]
  · simp [buildSeries, seriesRaw, timeKey, isNumberV, getField, rowPoint, jsNumberFin,
      JsVal.isNumberType, JsVal.isFiniteNum, List.enum, List.enumFrom, List.find?]

/-- C9 amended: `buildSeries` determines the time key (via `timeKey`) with
the JS `typeof === "number"` test — which non-finite numbers such as `NaN`
and `±Infinity` also pass, unlike the claim's finiteness test: it uses `t`
if any row's `t` value is number-typed, else `time` if any row's `time` value
is number-typed, else no key (index-based fallback timing `i / (n−1)` over
the total row count). -/
theorem timeKey_spec (data : List Row) :
    (timeKey data = some "t" ↔ ∃ r ∈ data, isNumberV (getField r "t") = true) ∧
    (timeKey data = some "time" ↔
      (∀ r ∈ data, isNumberV (getField r "t") = false) ∧
      ∃ r ∈ data, isNumberV (getField r "time") = true) ∧
    (timeKey data = none ↔
      (∀ r ∈ data, isNumberV (getField r "t") = false) ∧
      (∀ r ∈ data, isNumberV (getField r "time") = false)) := by
  have hany : ∀ k : String, (data.any (fun r => isNumberV (getField r k)) = true) ↔
      ∃ r ∈ data, isNumberV (getField r k) = true := by
    intro k
    simp [List.any_eq_true]
  have hall : ∀ k : String, (data.any (fun r => isNumberV (getField r k)) ≠ true) →
      ∀ r ∈ data, isNumberV (getField r k) = false := by
    intro k hk r hr
    cases hb : isNumberV (getField r k) with
    | true => exact absurd ((hany k).mpr ⟨r, hr, hb⟩) hk
    | false => rfl
  have hcontr : ∀ k : String, (∀ r ∈ data, isNumberV (getField r k) = false) →
      (∃ r ∈ data, isNumberV (getField r k) = true) → False := by
    rintro k hk ⟨r, hr, ht⟩
    rw [hk r hr] at ht
    exact Bool.false_ne_true ht
  unfold timeKey
  by_cases h1 : data.any (fun r => isNumberV (getField r "t")) = true
  · rw [if_pos h1]
    refine ⟨⟨fun _ => (hany "t").mp h1, fun _ => rfl⟩, ⟨?_, ?_⟩, ⟨?_, ?_⟩⟩
    · intro h; exact absurd h (by decide)
    · rintro ⟨ha, -⟩; exact absurd ((hany "t").mp h1) (fun he => hcontr "t" ha he)
    · intro h; exact absurd h (by decide)
    · rintro ⟨ha, -⟩; exact absurd ((hany "t").mp h1) (fun he => hcontr "t" ha he)
  · rw [if_neg h1]
    have h1' := hall "t" h1
    by_cases h2 : data.any (fun r => isNumberV (getField r "time")) = true
    · rw [if_pos h2]
      refine ⟨⟨?_, ?_⟩, ⟨fun _ => ⟨h1', (hany "time").mp h2⟩, fun _ => rfl⟩, ⟨?_, ?_⟩⟩
      · intro h; exact absurd h (by decide)
      · rintro ⟨r, hr, ht⟩; rw [h1' r hr] at ht; exact absurd ht Bool.false_ne_true
      · intro h; exact absurd h (by decide)
      · rintro ⟨-, ha⟩; exact absurd ((hany "time").mp h2) (fun he => hcontr "time" ha he)
    · rw [if_neg h2]
      have h2' := hall "time" h2
      refine ⟨⟨?_, ?_⟩, ⟨?_, ?_⟩, ⟨fun _ => ⟨h1', h2'⟩, fun _ => rfl⟩⟩
      · intro h; exact absurd h (by decide)
      · rintro ⟨r, hr, ht⟩; rw [h1' r hr] at ht; exact absurd ht Bool.false_ne_true
      · intro h; exact absurd h (by decide)
      · rintro ⟨-, r, hr, ht⟩; rw [h2' r hr] at ht; exact absurd ht Bool.false_ne_true

/-- C8. `listNumericChannels(rows)` returns exactly the field names whose
value is a finite number in at least one row, never includes the reserved
names `t`, `time` or `frame` (they fail `isReservedKey k = false`), and the
result is strictly sorted in the lexicographic string order — hence sorted
and duplicate-free. -/
theorem listNumericChannels_spec (data : List Row) :
    (∀ k : String, k ∈ listNumericChannels data ↔
      (isReservedKey k = false ∧ ∃ r ∈ data, ∃ v, (k, v) ∈ r ∧ v.isFiniteNum = true)) ∧
    List.Sorted (· < ·) (listNumericChannels data) ∧
    (listNumericChannels data).Nodup := by
  have hperm : (listNumericChannels data).Perm (data.flatMap rowNumericKeys).dedup :=
    List.perm_insertionSort _ _
  have hnd : (listNumericChannels data).Nodup :=
    hperm.nodup_iff.mpr (List.nodup_dedup _)
  refine ⟨?_, ?_, hnd⟩
  · intro k
    rw [hperm.mem_iff, List.mem_dedup, List.mem_flatMap]
    constructor
    · rintro ⟨r, hr, hk⟩
      unfold rowNumericKeys at hk
      rw [List.mem_map] at hk
      obtain ⟨pv, hpv, hfst⟩ := hk
      rw [List.mem_filter] at hpv
      obtain ⟨hmem, hcond⟩ := hpv
      rw [Bool.and_eq_true, Bool.not_eq_true'] at hcond
      subst hfst
      exact ⟨hcond.1, r, hr, pv.2, by simpa using hmem, hcond.2⟩
    · rintro ⟨hres, r, hr, v, hv, hfin⟩
      refine ⟨r, hr, ?_⟩
      unfold rowNumericKeys
      rw [List.mem_map]
      exact ⟨(k, v), List.mem_filter.mpr ⟨hv, by simp [hres, hfin]⟩, rfl⟩
  · exact (List.sorted_insertionSort _ _).lt_of_le hnd

lemma buildSeries_eq (data : List Row) (ch : String) (hne : ch ≠ "")
    (hD : data.isEmpty = false) (hR : (seriesRaw data ch).isEmpty = false) :
    buildSeries data (some ch) =
      ⟨(seriesRaw data ch).map
         (fun p => (p.1 - (((seriesRaw data ch).head?).map Prod.fst).getD 0, p.2)),
       max 0 ((((seriesRaw data ch).getLast?).map Prod.fst).getD 0 -
              (((seriesRaw data ch).head?).map Prod.fst).getD 0)⟩ := by
  simp only [buildSeries, hne, hD, hR, Bool.false_eq_true, if_false]

lemma buildSeries_of_raw_empty (data : List Row) (ch : String)
    (hR : (seriesRaw data ch).isEmpty = true) :
    buildSeries data (some ch) = ⟨[], 0⟩ := by
  by_cases hne : ch = ""
  · simp only [buildSeries, hne, if_true]
  · cases hD : data.isEmpty with
    | true => simp only [buildSeries, hne, hD, if_true, if_false]
    | false => simp only [buildSeries, hne, hD, hR, Bool.false_eq_true, if_false, if_true]

/-- C10 amended: whenever `buildSeries(rows, channel)` returns a non-empty
point list, the first point's relative time is exactly 0, the returned
duration is non-negative, and it equals `max 0` of the last point's
normalized time (only equal to the last normalized time itself when that is
non-negative — the clamp at line 535 makes the two differ on
time-decreasing rows). -/
theorem buildSeries_pts_spec (rows : List Row) (ch : Option String) (p q : ℚ × ℚ)
    (hp : (buildSeries rows ch).pts.head? = some p)
    (hq : (buildSeries rows ch).pts.getLast? = some q) :
    p.1 = 0 ∧ (buildSeries rows ch).dur = max 0 q.1 ∧ 0 ≤ (buildSeries rows ch).dur := by
  cases ch with
  | none => simp [buildSeries] at hp
  | some c =>
    by_cases hne : c = ""
    · rw [show buildSeries rows (some c) = ⟨[], 0⟩ from by
        simp only [buildSeries, hne, if_true]] at hp
      simp at hp
    cases hR : (seriesRaw rows c).isEmpty with
    | true =>
      rw [buildSeries_of_raw_empty rows c hR] at hp
      simp at hp
    | false =>
      have hD : rows.isEmpty = false := by
        cases hDe : rows.isEmpty with
        | false => rfl
        | true =>
          have : rows = [] := List.isEmpty_iff.mp hDe
          subst this
          simp [seriesRaw, List.enum] at hR
      have hbs := buildSeries_eq rows c hne hD hR
      rw [hbs] at hp hq ⊢
      dsimp only at hp hq ⊢
      rw [List.head?_map] at hp
      rw [List.getLast?_map] at hq
      obtain ⟨a, ha, hfa⟩ := Option.map_eq_some'.mp hp
      obtain ⟨b, hb, hfb⟩ := Option.map_eq_some'.mp hq
      have ht0 : (((seriesRaw rows c).head?).map Prod.fst).getD 0 = a.1 := by
        rw [ha]; rfl
      refine ⟨?_, ?_, le_max_left 0 _⟩
      · rw [← hfa, ht0]
        dsimp only
        ring
      · have ht1 : (((seriesRaw rows c).getLast?).map Prod.fst).getD 0 = b.1 := by
          rw [hb]; rfl
        rw [← hfb]
        dsimp only
        rw [ht1]

/-- The `t` field of a row, as the rational it holds when it is a finite
number (0 otherwise); used to state facts about `rows.first.t`/`rows.last.t`. -/
def tValD (r : Row) : ℚ :=
  match getField r "t" with
  | some (JsVal.fin q) => q
  | _ => 0

/-- The channel field of a row, as the rational it holds when it is a finite
number (0 otherwise). -/
def chValD (r : Row) (ch : String) : ℚ :=
  match getField r ch with
  | some (JsVal.fin q) => q
  | _ => 0

lemma isFiniteV_iff (o : Option JsVal) :
    isFiniteV o = true ↔ ∃ q, o = some (JsVal.fin q) := by
  cases o with
  | none => simp [isFiniteV]
  | some v => cases v <;> simp [isFiniteV, JsVal.isFiniteNum]

lemma rowPoint_of_finite (n i : ℕ) (ch : String) (r : Row)
    (hch : isFiniteV (getField r ch) = true)
    (ht : isFiniteV (getField r "t") = true) :
    rowPoint n (some "t") ch i r = some (tValD r, chValD r ch) := by
  obtain ⟨qv, hqv⟩ := (isFiniteV_iff _).mp hch
  obtain ⟨qt, hqt⟩ := (isFiniteV_iff _).mp ht
  simp only [rowPoint, hqv, hqt, jsNumberFin, tValD, chValD]

lemma enumFrom_filterMap_rowPoint (ch : String) (n : ℕ) (l : List Row) (k : ℕ)
    (hfin : ∀ r ∈ l, isFiniteV (getField r ch) = true ∧ isFiniteV (getField r "t") = true) :
    (List.enumFrom k l).filterMap (fun p => rowPoint n (some "t") ch p.1 p.2)
      = l.map (fun r => (tValD r, chValD r ch)) := by
  induction l generalizing k with
  | nil => rfl
  | cons a l ih =>
    have ha := hfin a (List.mem_cons_self a l)
    rw [List.enumFrom_cons, List.filterMap_cons, rowPoint_of_finite n k ch a ha.1 ha.2,
      List.map_cons, ih (k + 1) (fun r hr => hfin r (List.mem_cons_of_mem a hr))]

/-- The falsy-channel guard: JS `!channel` is true for the empty string, so
`buildSeries(data, "")` returns the empty series regardless of the rows. -/
lemma buildSeries_empty_channel (data : List Row) :
    buildSeries data (some "") = ⟨[], 0⟩ := rfl

/-- C3 amended: for non-empty rows and a non-empty channel name (the falsy
`""` short-circuits the guard at line 506) in which the channel's value and
the `t` value are finite numbers in every row, `buildSeries` keeps every row,
uses `t` as the time key, and returns duration
`max 0 (rows.last.t − rows.first.t)` — equal to `rows.last.t − rows.first.t`
exactly when the timestamps are non-decreasing end-to-end; on decreasing
timestamps the defensive clamp at line 535 returns 0 instead. -/
theorem buildSeries_duration_spec (rows : List Row) (ch : String) (rf rl : Row)
    (hne : ch ≠ "")
    (hh : rows.head? = some rf) (hl : rows.getLast? = some rl)
    (hfin : rows.all
      (fun r => isFiniteV (getField r ch) && isFiniteV (getField r "t")) = true) :
    (buildSeries rows (some ch)).dur = max 0 (tValD rl - tValD rf) := by
  have hall := List.all_eq_true.mp hfin
  have hfin' : ∀ r ∈ rows, isFiniteV (getField r ch) = true ∧
      isFiniteV (getField r "t") = true := by
    intro r hr
    simpa using hall r hr
  have hrf : rf ∈ rows := List.mem_of_mem_head? hh
  have htk : timeKey rows = some "t" := by
    unfold timeKey
    rw [if_pos]
    rw [List.any_eq_true]
    refine ⟨rf, hrf, ?_⟩
    obtain ⟨q, hq⟩ := (isFiniteV_iff _).mp (hfin' rf hrf).2
    simp [isNumberV, hq, JsVal.isNumberType]
  have hraw : seriesRaw rows ch = rows.map (fun r => (tValD r, chValD r ch)) := by
    unfold seriesRaw
    rw [htk]
    exact enumFrom_filterMap_rowPoint ch rows.length rows 0 hfin'
  have hD : rows.isEmpty = false := by
    cases rows with
    | nil => simp at hh
    | cons a l => rfl
  have hR : (seriesRaw rows ch).isEmpty = false := by
    rw [hraw]
    cases rows with
    | nil => simp at hh
    | cons a l => rfl
  rw [buildSeries_eq rows ch hne hD hR]
  dsimp only
  rw [hraw, List.head?_map, List.getLast?_map, hh, hl]
  rfl

/-- The three-row scenario of the spec's §8: `[{t:0,v:1},{t:0.5,v:2},{t:1,v:3}]`. -/
def specScenarioRows : List Row :=
  [[("t", JsVal.fin 0), ("v", JsVal.fin 1)],
   [("t", JsVal.fin (1/2)), ("v", JsVal.fin 2)],
   [("t", JsVal.fin 1), ("v", JsVal.fin 3)]]

/-- C3 counterexample: two rows with finite channel and `t` values everywhere
but decreasing timestamps (`t: 1` then `t: 0`).  The claim's hypotheses hold,
`rows.last.t − rows.first.t = −1`, yet the returned duration is `max 0 (−1)
= 0` (the clamp at line 535), not `−1`. -/
theorem buildSeries_duration_counterexample :
    ([[("t", JsVal.fin 1), ("v", JsVal.fin 5)], [("t", JsVal.fin 0), ("v", JsVal.fin 6)]]
        : List Row).all
      (fun r => isFiniteV (getField r "v") && isFiniteV (getField r "t")) = true ∧
    (buildSeries [[("t", JsVal.fin 1), ("v", JsVal.fin 5)],
                  [("t", JsVal.fin 0), ("v", JsVal.fin 6)]] (some "v")).dur = 0 ∧
    tValD [("t", JsVal.fin 0), ("v", JsVal.fin 6)] -
      tValD [("t", JsVal.fin 1), ("v", JsVal.fin 5)] = -1 ∧
    ((0 : ℚ) ≠ -1) := by
  refine ⟨by decide, ?_, ?_, by norm_num⟩
  · norm_num +decide [buildSeries, seriesRaw, timeKey, isNumberV, getField, rowPoint,
      jsNumberFin, JsVal.isNumberType, JsVal.isFiniteNum, List.enum, List.enumFrom,
      List.find?, List.filterMap_cons]
  · norm_num +decide [tValD, getField, List.find?]

/-- Witness for C3's amended theorem at the spec's own scenario rows. -/
theorem buildSeries_duration_spec_witness :
    (buildSeries specScenarioRows (some "v")).dur =
      max 0 (tValD [("t", JsVal.fin 1), ("v", JsVal.fin 3)] -
             tValD [("t", JsVal.fin 0), ("v", JsVal.fin 1)]) :=
  buildSeries_duration_spec specScenarioRows "v"
    [("t", JsVal.fin 0), ("v", JsVal.fin 1)] [("t", JsVal.fin 1), ("v", JsVal.fin 3)]
    (by decide) rfl rfl (by decide)

/-- C10 counterexample: on the decreasing-timestamp rows the series is
`[(0, 5), (−1, 6)]` with duration 0 — the last point's normalized time is
`−1`, so the duration does not equal it. -/
theorem buildSeries_pts_counterexample :
    buildSeries [[("t", JsVal.fin 1), ("v", JsVal.fin 5)],
                 [("t", JsVal.fin 0), ("v", JsVal.fin 6)]] (some "v")
      = ⟨[(0, 5), (-1, 6)], 0⟩ ∧
    ((0 : ℚ) ≠ -1) := by
  refine ⟨?_, by norm_num⟩
  norm_num +decide [buildSeries, seriesRaw, timeKey, isNumberV, getField, rowPoint,
    jsNumberFin, JsVal.isNumberType, JsVal.isFiniteNum, List.enum, List.enumFrom,
    List.find?, List.filterMap_cons]

/-- Witness for C10's amended theorem at the spec's scenario rows, whose
series is `[(0,1),(1/2,2),(1,3)]` with duration `max 0 1 = 1`. -/
theorem buildSeries_pts_spec_witness :
    ((0, 1) : ℚ × ℚ).1 = 0 ∧
    (buildSeries specScenarioRows (some "v")).dur = max 0 ((1, 3) : ℚ × ℚ).1 ∧
    0 ≤ (buildSeries specScenarioRows (some "v")).dur := by
  have hbs : buildSeries specScenarioRows (some "v") = ⟨[(0, 1), (1/2, 2), (1, 3)], 1⟩ := by
    norm_num +decide [buildSeries, seriesRaw, timeKey, isNumberV, getField, rowPoint,
      jsNumberFin, JsVal.isNumberType, JsVal.isFiniteNum, List.enum, List.enumFrom,
      List.find?, List.filterMap_cons, specScenarioRows]
  exact buildSeries_pts_spec specScenarioRows (some "v") (0, 1) (1, 3)
    (by rw [hbs]; rfl) (by rw [hbs]; rfl)

/-- Manifest for player "A" with a single session. -/
def c4mA : PlayerManifest := ⟨"A", some "S1", some ["S1"]⟩

/-- Player A's parsed table rows. -/
def c4rowsA : List Row :=
  [[("t", JsVal.fin 0), ("x", JsVal.fin 1)], [("t", JsVal.fin 1), ("x", JsVal.fin 2)]]

/-- A's fully-loaded data state, as derived by the effects. -/
def c4dLoaded : DataState :=
  ⟨some [("Data", c4rowsA)], ["Data"], some "Data", some c4rowsA, ["x"],
   some "x", some "x", some [(0, 1), (1, 2)], some [(0, 1), (1, 2)], 1⟩

/-- Load A successfully, then switch player and have the new manifest fetch
fail. -/
def c4trace : List LoadEvent :=
  [LoadEvent.manifestStart, LoadEvent.manifestOk 1 c4mA,
   LoadEvent.excelOk [("Data", c4rowsA)], LoadEvent.manifestStart, LoadEvent.manifestErr]

/-- C4 counterexample: after a successful load of player A, a failed manifest
fetch (the `catch` at lines 320-325) resets only `manifest`, `sessions` and
`session`; the dataset collection, sheet names, active sheet, rows, channels,
both channel selections and both derived series all keep their values from
the prior successful load — stale state remains, contradicting the claimed
full reset. -/
theorem manifest_failure_stale_counterexample :
    (runLoad initAppState c4trace).manifest = none ∧
    (runLoad initAppState c4trace).sessions = [] ∧
    (runLoad initAppState c4trace).session = none ∧
    (runLoad initAppState c4trace).data.rows = some c4rowsA ∧
    (runLoad initAppState c4trace).data.rows ≠ none ∧
    (runLoad initAppState c4trace).data.rowsBySheet = some [("Data", c4rowsA)] ∧
    (runLoad initAppState c4trace).data.channels = ["x"] ∧
    (runLoad initAppState c4trace).data.selectedChannel = some "x" ∧
    (runLoad initAppState c4trace).data.selectedChannelB = some "x" ∧
    (runLoad initAppState c4trace).data.series = some [(0, 1), (1, 2)] := by
  have e1 : applyLoadEvent initAppState LoadEvent.manifestStart
      = ⟨none, [], none, 1, initDataState⟩ := rfl
  have e2 : applyLoadEvent ⟨none, [], none, 1, initDataState⟩ (LoadEvent.manifestOk 1 c4mA)
      = ⟨some c4mA, ["S1"], some "S1", 1, initDataState⟩ := by
    simp +decide [applyLoadEvent, manifestNewSession, c4mA, Option.orElse]
  have h1 : followedByMatch "Data" "joint" "position" = false := by decide
  have h2 : followedByMatch "Data" "baseball" "data" = false := by decide
  have h3 : listNumericChannels c4rowsA = ["x"] := by decide
  have h4 : pickPreferredChannel ["x"] = some "x" := by decide
  have h5 : pickChannelB ["x"] = some "x" := by decide
  have h6 : buildSeries c4rowsA (some "x") = ⟨[(0, 1), (1, 2)], 1⟩ := by
    norm_num +decide [buildSeries, seriesRaw, timeKey, isNumberV, getField, rowPoint,
      jsNumberFin, JsVal.isNumberType, JsVal.isFiniteNum, c4rowsA,
      List.enum, List.enumFrom, List.find?, List.filterMap_cons]
  have e3 : applyLoadEvent ⟨some c4mA, ["S1"], some "S1", 1, initDataState⟩
      (LoadEvent.excelOk [("Data", c4rowsA)])
      = ⟨some c4mA, ["S1"], some "S1", 1, c4dLoaded⟩ := by
    simp +decide [applyLoadEvent, settleData, recomputeEffect, seriesEffect, seriesBEffect,
      lookupSheet, initDataState, c4dLoaded, List.find?, Option.orElse, h1, h2, h3, h4, h5, h6]
  have e4 : applyLoadEvent ⟨some c4mA, ["S1"], some "S1", 1, c4dLoaded⟩
      LoadEvent.manifestStart = ⟨some c4mA, ["S1"], some "S1", 2, c4dLoaded⟩ := rfl
  have e5 : applyLoadEvent ⟨some c4mA, ["S1"], some "S1", 2, c4dLoaded⟩
      LoadEvent.manifestErr = ⟨none, [], none, 2, c4dLoaded⟩ := rfl
  have hrun : runLoad initAppState c4trace = ⟨none, [], none, 2, c4dLoaded⟩ := by
    show applyLoadEvent (applyLoadEvent (applyLoadEvent (applyLoadEvent
      (applyLoadEvent initAppState LoadEvent.manifestStart) (LoadEvent.manifestOk 1 c4mA))
      (LoadEvent.excelOk [("Data", c4rowsA)])) LoadEvent.manifestStart) LoadEvent.manifestErr
      = ⟨none, [], none, 2, c4dLoaded⟩
    rw [e1, e2, e3, e4, e5]
  rw [hrun]
  exact ⟨rfl, rfl, rfl, rfl, Option.some_ne_none _, rfl, rfl, rfl, rfl, rfl⟩

/-- C4 amended: on a table (excel) fetch/parse failure the dataset
collection, sheet names, active sheet and rows are reset to empty/null and
the dependent effects clear both derived series and the series duration —
but the channels list and both channel selections A and B retain their prior
values (the recompute effect returns early when the collection is null).  On
a manifest fetch failure only `manifest`, `sessions` and `session` are reset;
the entire data state retains its prior value. -/
theorem load_failure_reset_spec (s : AppState) :
    ((applyLoadEvent s LoadEvent.excelErr).data.rowsBySheet = none ∧
     (applyLoadEvent s LoadEvent.excelErr).data.sheetNames = [] ∧
     (applyLoadEvent s LoadEvent.excelErr).data.sheet = none ∧
     (applyLoadEvent s LoadEvent.excelErr).data.rows = none ∧
     (applyLoadEvent s LoadEvent.excelErr).data.series = none ∧
     (applyLoadEvent s LoadEvent.excelErr).data.seriesB = none ∧
     (applyLoadEvent s LoadEvent.excelErr).data.jsonDuration = 0 ∧
     (applyLoadEvent s LoadEvent.excelErr).data.channels = s.data.channels ∧
     (applyLoadEvent s LoadEvent.excelErr).data.selectedChannel = s.data.selectedChannel ∧
     (applyLoadEvent s LoadEvent.excelErr).data.selectedChannelB = s.data.selectedChannelB) ∧
    ((applyLoadEvent s LoadEvent.manifestErr).manifest = none ∧
     (applyLoadEvent s LoadEvent.manifestErr).sessions = [] ∧
     (applyLoadEvent s LoadEvent.manifestErr).session = none ∧
     (applyLoadEvent s LoadEvent.manifestErr).data = s.data) := by
  refine ⟨?_, rfl, rfl, rfl, rfl⟩
  simp [applyLoadEvent, applyExcelErr, settleData, recomputeEffect, seriesEffect,
    seriesBEffect]

/-- Manifest for player "B". -/
def c5mB : PlayerManifest := ⟨"B", some "S1", some ["S1"]⟩

/-- Player B's parsed table rows. -/
def c5rowsB : List Row := [[("t", JsVal.fin 0), ("y", JsVal.fin 9)]]

/-- Overlapping loads: A's manifest resolves, the player switches to B, B's
manifest and excel resolve — and then A's stale excel fetch resolves last. -/
def c5trace : List LoadEvent :=
  [LoadEvent.manifestStart, LoadEvent.manifestOk 1 c4mA,
   LoadEvent.manifestStart, LoadEvent.manifestOk 2 c5mB,
   LoadEvent.excelOk [("Data", c5rowsB)], LoadEvent.excelOk [("Data", c4rowsA)]]

/-- C5: the excel-load effect (lines 364-390) has **no** cancellation flag,
so when A's table fetch resolves after B's whole load, A's stale result
overwrites the dataset collection: the final state holds A's table, not B's,
while the manifest state is B's.  By contrast, the manifest loader does carry
a `cancelled` flag, and a manifest completion of a superseded run is
discarded (last conjunct). -/
theorem stale_excel_completion_applied :
    (runLoad initAppState c5trace).data.rowsBySheet = some [("Data", c4rowsA)] ∧
    (runLoad initAppState c5trace).data.rows = some c4rowsA ∧
    (runLoad initAppState c5trace).manifest = some c5mB ∧
    (some [("Data", c4rowsA)] ≠ some [("Data", c5rowsB)]) ∧
    (runLoad initAppState [LoadEvent.manifestStart, LoadEvent.manifestStart,
        LoadEvent.manifestOk 1 c4mA]).manifest = none := by
  have f2 : applyLoadEvent ⟨none, [], none, 1, initDataState⟩ (LoadEvent.manifestOk 1 c4mA)
      = ⟨some c4mA, ["S1"], some "S1", 1, initDataState⟩ := by
    simp +decide [applyLoadEvent, manifestNewSession, c4mA, Option.orElse]
  have f4 : applyLoadEvent ⟨some c4mA, ["S1"], some "S1", 2, initDataState⟩
      (LoadEvent.manifestOk 2 c5mB)
      = ⟨some c5mB, ["S1"], some "S1", 2, initDataState⟩ := by
    simp +decide [applyLoadEvent, manifestNewSession, c5mB, Option.orElse]
  have h1 : followedByMatch "Data" "joint" "position" = false := by decide
  have h2 : followedByMatch "Data" "baseball" "data" = false := by decide
  have h3y : listNumericChannels c5rowsB = ["y"] := by decide
  have h4y : pickPreferredChannel ["y"] = some "y" := by decide
  have h5y : pickChannelB ["y"] = some "y" := by decide
  have h6y : buildSeries c5rowsB (some "y") = ⟨[(0, 9)], 0⟩ := by
    norm_num +decide [buildSeries, seriesRaw, timeKey, isNumberV, getField, rowPoint,
      jsNumberFin, JsVal.isNumberType, JsVal.isFiniteNum, c5rowsB,
      List.enum, List.enumFrom, List.find?, List.filterMap_cons]
  have f5 : applyLoadEvent ⟨some c5mB, ["S1"], some "S1", 2, initDataState⟩
      (LoadEvent.excelOk [("Data", c5rowsB)])
      = ⟨some c5mB, ["S1"], some "S1", 2,
         ⟨some [("Data", c5rowsB)], ["Data"], some "Data", some c5rowsB, ["y"],
          some "y", some "y", some [(0, 9)], some [(0, 9)], 0⟩⟩ := by
    simp +decide [applyLoadEvent, settleData, recomputeEffect, seriesEffect, seriesBEffect,
      lookupSheet, initDataState, List.find?, Option.orElse, h1, h2, h3y, h4y, h5y, h6y]
  have h3x : listNumericChannels c4rowsA = ["x"] := by decide
  have h4x : pickPreferredChannel ["x"] = some "x" := by decide
  have h5x : pickChannelB ["x"] = some "x" := by decide
  have h4m : ("y" ∈ ["x"]) = False := by simp
  have h6x : buildSeries c4rowsA (some "x") = ⟨[(0, 1), (1, 2)], 1⟩ := by
    norm_num +decide [buildSeries, seriesRaw, timeKey, isNumberV, getField, rowPoint,
      jsNumberFin, JsVal.isNumberType, JsVal.isFiniteNum, c4rowsA,
      List.enum, List.enumFrom, List.find?, List.filterMap_cons]
  have f6 : applyLoadEvent ⟨some c5mB, ["S1"], some "S1", 2,
         ⟨some [("Data", c5rowsB)], ["Data"], some "Data", some c5rowsB, ["y"],
          some "y", some "y", some [(0, 9)], some [(0, 9)], 0⟩⟩
      (LoadEvent.excelOk [("Data", c4rowsA)])
      = ⟨some c5mB, ["S1"], some "S1", 2, c4dLoaded⟩ := by
    simp +decide [applyLoadEvent, settleData, recomputeEffect, seriesEffect, seriesBEffect,
      lookupSheet, c4dLoaded, List.find?, Option.orElse, h1, h2, h3x, h4x, h5x, h6x]
  have hrun : runLoad initAppState c5trace = ⟨some c5mB, ["S1"], some "S1", 2, c4dLoaded⟩ := by
    show applyLoadEvent (applyLoadEvent (applyLoadEvent (applyLoadEvent (applyLoadEvent
      (applyLoadEvent initAppState LoadEvent.manifestStart) (LoadEvent.manifestOk 1 c4mA))
      LoadEvent.manifestStart) (LoadEvent.manifestOk 2 c5mB))
      (LoadEvent.excelOk [("Data", c5rowsB)])) (LoadEvent.excelOk [("Data", c4rowsA)])
      = ⟨some c5mB, ["S1"], some "S1", 2, c4dLoaded⟩
    rw [show applyLoadEvent initAppState LoadEvent.manifestStart
        = ⟨none, [], none, 1, initDataState⟩ from rfl, f2,
      show applyLoadEvent ⟨some c4mA, ["S1"], some "S1", 1, initDataState⟩
        LoadEvent.manifestStart = ⟨some c4mA, ["S1"], some "S1", 2, initDataState⟩ from rfl,
      f4, f5, f6]
  refine ⟨?_, ?_, ?_, ?_, ?_⟩
  · rw [hrun]; rfl
  · rw [hrun]; rfl
  · rw [hrun]
  · simp [c4rowsA, c5rowsB]
  · rfl
